import Mathlib

/-!
Verification development for the obsidian-rclone-bridge plugin core
(`main.ts`): output parsing of the rclone subprocess, per-target
invocation (`runRcloneSync`), the batch orchestrator (`handleSync`),
and settings loading with legacy migration (`loadSettings`).

Machine strings are modelled as Lean `String`; the JavaScript regular
expressions used by the parser are embedded by a small backtracking
matcher specialised to the constructs they use (case-insensitive
literals, character classes, greedy `*`, `+` and `?`, capture groups,
alternation realised as separate patterns). Subprocess behaviour is an
environment parameter: each invocation is given a `ProcEvent` (a spawn
error or an exit with code and captured streams), and the spawn calls
the code would issue are returned as data.
-/

namespace RcloneBridge

/-! ## Character classes of the JavaScript regular expressions -/

/-- JavaScript regex class `\d`. -/
def isDigitChar (c : Char) : Bool := decide ('0' ≤ c ∧ c ≤ '9')

/-- The class `[\d.]` used by the size pattern. -/
def isDigitDot (c : Char) : Bool := isDigitChar c || c == '.'

/-- JavaScript regex class `\s` (ASCII whitespace forms). -/
def isSpaceJS (c : Char) : Bool :=
  c == ' ' || c == '\t' || c == '\n' || c == '\r' ||
  c == Char.ofNat 11 || c == Char.ofNat 12

/-- JavaScript regex class `\w`. -/
def isWordChar (c : Char) : Bool :=
  decide ('a' ≤ c ∧ c ≤ 'z') || decide ('A' ≤ c ∧ c ≤ 'Z') || isDigitChar c || c == '_'

/-- JavaScript `.` without the dotall flag: any char except line terminators. -/
def isDotChar (c : Char) : Bool :=
  !(c == '\n' || c == '\r' || c == Char.ofNat 0x2028 || c == Char.ofNat 0x2029)

/-! ## A small backtracking regex matcher

`RItem` is one atom of a pattern; a pattern is a list of `GItem`, where
a `grp` marks a capture group. Matching is continuation-passing so that
the greedy quantifiers backtrack exactly as the JavaScript engine does:
longest candidate first, the optional literal present-first. -/

/-- One regex atom: case-insensitive literal, single-char class,
greedy `*` over a class, greedy `+` over a class, or a greedy optional
case-insensitive literal. -/
inductive RItem where
  | lit : Char → RItem
  | cls : (Char → Bool) → RItem
  | many : (Char → Bool) → RItem
  | many1 : (Char → Bool) → RItem
  | optLit : Char → RItem

/-- Pattern element: a plain atom or a capture group of atoms. -/
inductive GItem where
  | plain : RItem → GItem
  | grp : List RItem → GItem

/-- Remainders after consuming a prefix of chars satisfying `p`,
longest consumed first (the greedy backtracking order). -/
def prefRemainders (p : Char → Bool) : List Char → List (List Char)
  | [] => [[]]
  | c :: cs => if p c then prefRemainders p cs ++ [c :: cs] else [c :: cs]

/-- First success of `f` over a list of candidate remainders. -/
def firstSome (f : List Char → Option (List (List Char))) :
    List (List Char) → Option (List (List Char))
  | [] => none
  | x :: xs =>
    match f x with
    | some a => some a
    | none => firstSome f xs

/-- Case-insensitive char comparison (the `i` regex flag). -/
def charMatchesCI (a b : Char) : Bool := a.toLower == b.toLower

/-- Match a list of atoms against `cs`, calling the continuation `k` on
the remainder; backtracks through `k` failures. Structural on `fuel`;
a fuel of `items.length + 1` is always sufficient since every step
strips one atom. -/
def matchItems : Nat → List RItem → List Char →
    (List Char → Option (List (List Char))) → Option (List (List Char))
  | 0, _, _, _ => none
  | Nat.succ fuel, items, cs, k =>
    match items with
    | [] => k cs
    | RItem.lit c :: rest =>
      match cs with
      | [] => none
      | d :: ds => if charMatchesCI d c then matchItems fuel rest ds k else none
    | RItem.cls p :: rest =>
      match cs with
      | [] => none
      | d :: ds => if p d then matchItems fuel rest ds k else none
    | RItem.many p :: rest =>
      firstSome (fun cs2 => matchItems fuel rest cs2 k) (prefRemainders p cs)
    | RItem.many1 p :: rest =>
      match cs with
      | [] => none
      | d :: ds =>
        if p d then firstSome (fun cs2 => matchItems fuel rest cs2 k) (prefRemainders p ds)
        else none
    | RItem.optLit c :: rest =>
      match cs with
      | [] => matchItems fuel rest [] k
      | d :: ds =>
        if charMatchesCI d c then
          match matchItems fuel rest ds k with
          | some a => some a
          | none => matchItems fuel rest cs k
        else matchItems fuel rest cs k

/-- Match a pattern at the head of `cs`, accumulating captured groups
(in reverse); returns the captures of the first (backtracking-ordered)
full match. -/
def matchG : Nat → List GItem → List Char → List (List Char) → Option (List (List Char))
  | 0, _, _, _ => none
  | Nat.succ fuel, gs, cs, acc =>
    match gs with
    | [] => some acc.reverse
    | GItem.plain it :: rest =>
      matchItems 2 [it] cs (fun cs2 => matchG fuel rest cs2 acc)
    | GItem.grp its :: rest =>
      matchItems (its.length + 1) its cs (fun cs2 =>
        matchG fuel rest cs2 (cs.take (cs.length - cs2.length) :: acc))

/-- Match a pattern anchored at the start of `cs`. -/
def matchGAt (gs : List GItem) (cs : List Char) : Option (List (List Char)) :=
  matchG (gs.length + 1) gs cs []

/-- Unanchored first match, scanning start positions left to right as
the JavaScript `String.prototype.match` does. -/
def searchG (gs : List GItem) : List Char → Option (List (List Char))
  | [] => matchGAt gs []
  | c :: cs =>
    match matchGAt gs (c :: cs) with
    | some caps => some caps
    | none => searchG gs cs

/-! ## The concrete patterns of the output parser -/

/-- Case-insensitive literal items for a string. -/
def litItems (s : String) : List RItem := s.data.map RItem.lit

/-- Wrap atoms as plain (non-capturing) pattern elements. -/
def plains (its : List RItem) : List GItem := its.map GItem.plain

/-- The group `([\d.]+\s*\w*i?B)` of the size pattern. -/
def sizeAmountItems : List RItem :=
  [RItem.many1 isDigitDot, RItem.many isSpaceJS, RItem.many isWordChar,
   RItem.optLit 'i', RItem.lit 'B']

/-- `/Transferred:\s*([\d.]+\s*\w*i?B)\s*\/\s*([\d.]+\s*\w*i?B)/i`. -/
def sizePattern : List GItem :=
  plains (litItems "Transferred:") ++
  [GItem.plain (RItem.many isSpaceJS), GItem.grp sizeAmountItems,
   GItem.plain (RItem.many isSpaceJS), GItem.plain (RItem.lit '/'),
   GItem.plain (RItem.many isSpaceJS), GItem.grp sizeAmountItems]

/-- Shared tail `\s*(\d+)\s*\/\s*(\d+)` of the count and checks patterns. -/
def intPairTail : List GItem :=
  [GItem.plain (RItem.many isSpaceJS), GItem.grp [RItem.many1 isDigitChar],
   GItem.plain (RItem.many isSpaceJS), GItem.plain (RItem.lit '/'),
   GItem.plain (RItem.many isSpaceJS), GItem.grp [RItem.many1 isDigitChar]]

/-- `/Transferred:\s*(\d+)\s*\/\s*(\d+)/i`. -/
def countPattern : List GItem := plains (litItems "Transferred:") ++ intPairTail

/-- `/Checks:\s*(\d+)\s*\/\s*(\d+)/i`. -/
def checksPattern : List GItem := plains (litItems "Checks:") ++ intPairTail

/-- The alternative `No changes` of the no-changes test regex. -/
def noChangesAltA : List GItem := plains (litItems "No changes")

/-- The alternative `up.to.date` (any non-newline char for `.`). -/
def noChangesAltB : List GItem :=
  plains (litItems "up") ++ [GItem.plain (RItem.cls isDotChar)] ++
  plains (litItems "to") ++ [GItem.plain (RItem.cls isDotChar)] ++
  plains (litItems "date")

/-- The alternative `Nothing to do`. -/
def noChangesAltC : List GItem := plains (litItems "Nothing to do")

/-- `/No changes|up.to.date|Nothing to do/i.test(combined)`: the text
matches some alternative at some position. -/
def regexTestNoChanges (s : String) : Bool :=
  (searchG noChangesAltA s.data).isSome ||
  (searchG noChangesAltB s.data).isSome ||
  (searchG noChangesAltC s.data).isSome

/-! ## Output parsing (the close-handler of `runRcloneSync`) -/

/-- `parseInt(str, 10)` on an all-digits capture. -/
def parseDigits (cs : List Char) : Nat :=
  cs.foldl (fun n c => n * 10 + (c.toNat - 48)) 0

/-- `combined.match(/Transferred:\s*([\d.]+\s*\w*i?B)\s*\/\s*([\d.]+\s*\w*i?B)/i)`. -/
def sizeLineMatch (combined : String) : Option (List (List Char)) :=
  searchG sizePattern combined.data

/-- `combined.match(/Transferred:\s*(\d+)\s*\/\s*(\d+)/i)`. -/
def countLineMatch (combined : String) : Option (List (List Char)) :=
  searchG countPattern combined.data

/-- `combined.match(/Checks:\s*(\d+)\s*\/\s*(\d+)/i)`. -/
def checksLineMatch (combined : String) : Option (List (List Char)) :=
  searchG checksPattern combined.data

/-- `transferredSize = sizeLineMatch ? sizeLineMatch[1] : undefined`. -/
def transferredSize (combined : String) : Option String :=
  (sizeLineMatch combined).bind (fun g => g.head?.map List.asString)

/-- `transferredFiles = countLineMatch ? parseInt(countLineMatch[1], 10) : undefined`. -/
def transferredFiles (combined : String) : Option Nat :=
  (countLineMatch combined).bind (fun g => g.head?.map parseDigits)

/-- `checksDone = checksLineMatch ? parseInt(checksLineMatch[1], 10) : undefined`. -/
def checksDone (combined : String) : Option Nat :=
  (checksLineMatch combined).bind (fun g => g.head?.map parseDigits)

/-- `checksTotal = checksLineMatch ? parseInt(checksLineMatch[2], 10) : undefined`. -/
def checksTotal (combined : String) : Option Nat :=
  (checksLineMatch combined).bind (fun g => (g.get? 1).map parseDigits)

/-- The no-changes condition:
`(transferredFiles !== undefined && transferredFiles === 0) ||
 /No changes|up.to.date|Nothing to do/i.test(combined)`. -/
def noChangesB (combined : String) : Bool :=
  (match transferredFiles combined with
   | some n => n == 0
   | none => false) || regexTestNoChanges combined

/-- `filesPart`: `transferredFiles !== undefined ? transferredFiles + " files" : ""`. -/
def filesPartOf (combined : String) : String :=
  match transferredFiles combined with
  | some n => toString n ++ " files"
  | none => ""

/-- `checksPart`: `checksLineMatch ? ", checks " + checksDone + "/" + checksTotal : ""`. -/
def checksPartOf (combined : String) : String :=
  match checksDone combined, checksTotal combined with
  | some d, some t => ", checks " ++ toString d ++ "/" ++ toString t
  | _, _ => ""

/-- The summary built by the close-handler of `runRcloneSync` from the
combined output text and the formatted duration string. -/
def buildSummary (combined : String) (durationSec : String) : String :=
  if noChangesB combined then
    "已是最新 (耗时 " ++ durationSec ++ "s)"
  else
    match transferredSize combined with
    | some sz =>
      (if filesPartOf combined == "" then "" else filesPartOf combined ++ ", ") ++ sz ++
        (" (耗时 " ++ durationSec ++ "s" ++ checksPartOf combined ++ ")")
    | none => "完成 (耗时 " ++ durationSec ++ "s)"

/-! ## Data model and target runner -/

/-- One configured remote (`RcloneRemote` in the source). -/
structure RcloneRemote where
  name : String
  path : String
  enable : Bool
  deriving DecidableEq

/-- Plugin settings (`ObsidianRcloneBridgeSettings` in the source). -/
structure ObsidianRcloneBridgeSettings where
  rclonePath : String
  remotes : List RcloneRemote
  deriving DecidableEq

/-- `DEFAULT_SETTINGS` of the source. -/
def DEFAULT_SETTINGS : ObsidianRcloneBridgeSettings :=
  { rclonePath := "", remotes := [] }

/-- What the environment makes of one subprocess invocation: the OS
fails to start it (the `error` event), or it exits with a code and the
accumulated stdout/stderr plus the formatted elapsed duration observed
in the `close` handler. A `none` exit code models the `null` code of a
signal-terminated process. -/
inductive ProcEvent where
  | spawnError : String → ProcEvent
  | exited : Option Int → String → String → String → ProcEvent
  deriving DecidableEq

/-- A call to `spawn(rclonePath, args, { shell: false })`,
reified as data. -/
structure SpawnCall where
  cmd : String
  args : List String
  shell : Bool
  deriving DecidableEq

deriving instance DecidableEq for Except

/-- Outcome of `runRcloneSync` for one target: the resolved/rejected
promise value, and the spawn call issued (none when a pre-flight check
threw before spawning). -/
structure RunOutcome where
  result : Except String String
  spawned : Option SpawnCall
  deriving DecidableEq

/-- The effective remote address:
`remote.path.includes(":") ? remote.path : remote.name ? name + ":" + path : ""`. -/
def remoteTarget (remote : RcloneRemote) : String :=
  if remote.path.data.contains ':' then remote.path
  else if remote.name ≠ "" then remote.name ++ ":" ++ remote.path
  else ""

/-- `${code}` in the rejection message of the close handler. -/
def showExitCode : Option Int → String
  | none => "null"
  | some n => toString n

/-- `runRcloneSync(remote)`: pre-flight checks (executable path, vault
path, remote address), then the spawn whose outcome is the supplied
`ProcEvent`. Error strings are the thrown `Error` messages. -/
def runRcloneSync (rclonePath : String) (vaultPath : Option String)
    (remote : RcloneRemote) (ev : ProcEvent) : RunOutcome :=
  if rclonePath = "" then
    ⟨Except.error "请在设置中填写 rclone 可执行文件的绝对路径。", none⟩
  else
    match vaultPath with
    | none => ⟨Except.error "无法获取当前 Vault 的本地路径（仅桌面端支持）。", none⟩
    | some vp =>
      if remoteTarget remote = "" then
        ⟨Except.error "请在设置中填写 Remote 名称与远程路径。", none⟩
      else
        let args := ["bisync", vp, remoteTarget remote, "--verbose", "--resync"]
        let call : SpawnCall := ⟨rclonePath, args, false⟩
        match ev with
        | ProcEvent.spawnError msg => ⟨Except.error msg, some call⟩
        | ProcEvent.exited code out err dur =>
          let combined := out ++ "\n" ++ err
          let summary := buildSummary combined dur
          if code = some 0 then ⟨Except.ok summary, some call⟩
          else
            ⟨Except.error ("rclone 退出码 " ++ showExitCode code ++ "\n" ++
              (if err = "" then out else err)), some call⟩

/-! ## Orchestrator (`handleSync`) -/

/-- One entry of the `results` array of `handleSync`. -/
structure SyncResultE where
  remote : RcloneRemote
  success : Bool
  summary : String
  deriving DecidableEq

/-- The per-target try/catch of the loop body: a resolved promise gives
a success entry, a caught error gives a failure entry carrying the
message. -/
def mkSyncResult (remote : RcloneRemote) (out : RunOutcome) : SyncResultE :=
  match out.result with
  | Except.ok summary => ⟨remote, true, summary⟩
  | Except.error msg => ⟨remote, false, "失败: " ++ msg⟩

/-- The orchestrator loop: one `runRcloneSync` invocation per remote in
list order, the results and issued spawn calls in order. `i` is the
invocation rank used to index the environment. -/
def syncLoop (rclonePath : String) (vaultPath : Option String)
    (events : Nat → ProcEvent) : List RcloneRemote → Nat → List SyncResultE × List SpawnCall
  | [], _ => ([], [])
  | remote :: rest, i =>
    (mkSyncResult remote (runRcloneSync rclonePath vaultPath remote (events i)) ::
       (syncLoop rclonePath vaultPath events rest (i + 1)).1,
     (runRcloneSync rclonePath vaultPath remote (events i)).spawned.toList ++
       (syncLoop rclonePath vaultPath events rest (i + 1)).2)

/-- Mutable plugin state touched by `handleSync`: the single-flight
flag and the status-bar text. -/
structure PluginState where
  isSyncing : Bool
  status : String
  deriving DecidableEq

/-- Observable outcome of one `handleSync` call: final state, the
`Notice` messages raised, the per-target results, and the spawn calls
issued. -/
structure HandleOutcome where
  finalState : PluginState
  notices : List String
  results : List SyncResultE
  spawns : List SpawnCall
  deriving DecidableEq

/-- `handleSync()`: single-flight guard, enabled-remotes snapshot,
zero-target config error (caught by the outer catch), sequential loop,
aggregate status and final notice, and the `finally` clearing
`isSyncing`. `batchDur` is the formatted wall-clock duration of
the loop. -/
def handleSync (settings : ObsidianRcloneBridgeSettings) (st : PluginState)
    (vaultPath : Option String) (events : Nat → ProcEvent)
    (batchDur : String) : HandleOutcome :=
  if st.isSyncing then
    ⟨st, ["已有同步任务正在进行，请稍候..."], [], []⟩
  else
    let enabledRemotes := settings.remotes.filter (fun r => r.enable)
    if enabledRemotes.isEmpty then
      ⟨⟨false, "同步失败"⟩, ["同步失败: 请在设置中至少启用一个 Remote。"], [], []⟩
    else
      let loopOut := syncLoop settings.rclonePath vaultPath events enabledRemotes 0
      let results := loopOut.1
      let allSuccess := results.all (fun r => r.success)
      let lines :=
        ("同步完成 (" ++ batchDur ++ "s)") ::
          results.map (fun r =>
            (if r.remote.name = "" then "(未命名)" else r.remote.name) ++ ": " ++ r.summary)
      ⟨⟨false, if allSuccess then "同步成功" else "同步失败"⟩,
       [String.intercalate "\n" lines], results, loopOut.2⟩

/-! ## Settings loading (`loadSettings`) -/

/-- The stored data blob: every field optional (`none` models an
absent or null field, covering an entirely absent blob as well). -/
structure StoredData where
  rclonePath : Option String
  remotes : Option (List RcloneRemote)
  remoteName : Option String
  remotePath : Option String
  deriving DecidableEq

/-- JavaScript truthiness of an optional string field. -/
def truthyStr : Option String → Bool
  | none => false
  | some s => s ≠ ""

/-- `loadSettings()`: `Object.assign({}, DEFAULT_SETTINGS, data)`
followed by the legacy single-target migration. -/
def loadSettings (data : StoredData) : ObsidianRcloneBridgeSettings :=
  let settings : ObsidianRcloneBridgeSettings :=
    { rclonePath := data.rclonePath.getD DEFAULT_SETTINGS.rclonePath,
      remotes := data.remotes.getD DEFAULT_SETTINGS.remotes }
  if settings.remotes.isEmpty && (truthyStr data.remoteName || truthyStr data.remotePath) then
    { settings with
        remotes := [⟨data.remoteName.getD "", data.remotePath.getD "", true⟩] }
  else settings

/-! ## Error taxonomy -/

/-- The messages of the three pre-flight `ConfigError` throws of
`runRcloneSync` (missing executable path, unavailable vault path,
missing remote name/path). -/
def configErrorMessages : List String :=
  ["请在设置中填写 rclone 可执行文件的绝对路径。",
   "无法获取当前 Vault 的本地路径（仅桌面端支持）。",
   "请在设置中填写 Remote 名称与远程路径。"]

/-! ## Helper lemmas -/

theorem mkSyncResult_remote (r : RcloneRemote) (o : RunOutcome) :
    (mkSyncResult r o).remote = r := by
  cases h : o.result <;> simp [mkSyncResult, h]

theorem append_colon_ne_empty (a b : String) (ha : a ≠ "") : a ++ ":" ++ b ≠ "" := by
  intro h
  have hd := congrArg String.data h
  simp only [String.data_append] at hd
  cases hda : a.data with
  | nil => exact ha (String.ext hda)
  | cons c cs => rw [hda] at hd; simp at hd

theorem remoteTarget_eq_empty_iff (r : RcloneRemote) :
    remoteTarget r = "" ↔ (r.name = "" ∧ r.path.data.contains ':' = false) := by
  unfold remoteTarget
  by_cases hc : r.path.data.contains ':' = true
  · rw [if_pos hc]
    constructor
    · intro h
      rw [h] at hc
      exact absurd hc (by decide)
    · rintro ⟨-, h2⟩
      rw [hc] at h2
      cases h2
  · rw [if_neg hc]
    have hc' : r.path.data.contains ':' = false := by
      cases hcc : r.path.data.contains ':' with
      | false => rfl
      | true => exact absurd hcc hc
    by_cases hn : r.name = ""
    · rw [if_neg (fun hne => hne hn)]
      exact ⟨fun _ => ⟨hn, hc'⟩, fun _ => rfl⟩
    · rw [if_pos hn]
      exact ⟨fun h => absurd h (append_colon_ne_empty r.name r.path hn),
             fun hc2 => absurd hc2.1 hn⟩

/-- Definitional shape of `runRcloneSync` with no vault path. -/
theorem runRcloneSync_none (p : String) (r : RcloneRemote) (ev : ProcEvent) :
    runRcloneSync p none r ev =
      if p = "" then ⟨Except.error "请在设置中填写 rclone 可执行文件的绝对路径。", none⟩
      else ⟨Except.error "无法获取当前 Vault 的本地路径（仅桌面端支持）。", none⟩ := rfl

/-- Definitional shape of `runRcloneSync` on a spawn error. -/
theorem runRcloneSync_spawnError (p v : String) (r : RcloneRemote) (msg : String) :
    runRcloneSync p (some v) r (ProcEvent.spawnError msg) =
      if p = "" then ⟨Except.error "请在设置中填写 rclone 可执行文件的绝对路径。", none⟩
      else if remoteTarget r = "" then
        ⟨Except.error "请在设置中填写 Remote 名称与远程路径。", none⟩
      else
        ⟨Except.error msg,
         some ⟨p, ["bisync", v, remoteTarget r, "--verbose", "--resync"], false⟩⟩ := rfl

/-- Definitional shape of `runRcloneSync` on a process exit. -/
theorem runRcloneSync_exited (p v : String) (r : RcloneRemote)
    (code : Option Int) (out err dur : String) :
    runRcloneSync p (some v) r (ProcEvent.exited code out err dur) =
      if p = "" then ⟨Except.error "请在设置中填写 rclone 可执行文件的绝对路径。", none⟩
      else if remoteTarget r = "" then
        ⟨Except.error "请在设置中填写 Remote 名称与远程路径。", none⟩
      else if code = some 0 then
        ⟨Except.ok (buildSummary (out ++ "\n" ++ err) dur),
         some ⟨p, ["bisync", v, remoteTarget r, "--verbose", "--resync"], false⟩⟩
      else
        ⟨Except.error ("rclone 退出码 " ++ showExitCode code ++ "\n" ++
           (if err = "" then out else err)),
         some ⟨p, ["bisync", v, remoteTarget r, "--verbose", "--resync"], false⟩⟩ := rfl

/-- With an empty executable path, the runner throws the config error
and spawns nothing. -/
theorem runRcloneSync_missing_exec (vp : Option String) (r : RcloneRemote) (ev : ProcEvent) :
    runRcloneSync "" vp r ev =
      ⟨Except.error "请在设置中填写 rclone 可执行文件的绝对路径。", none⟩ := by
  cases vp <;> cases ev <;> rfl

/-- With no vault path, the runner throws the config error and spawns
nothing. -/
theorem runRcloneSync_no_vault (p : String) (r : RcloneRemote) (ev : ProcEvent)
    (hp : p ≠ "") :
    runRcloneSync p none r ev =
      ⟨Except.error "无法获取当前 Vault 的本地路径（仅桌面端支持）。", none⟩ := by
  rw [runRcloneSync_none, if_neg hp]

/-- With an empty effective remote address, the runner throws the
config error and spawns nothing. -/
theorem runRcloneSync_bad_target (p v : String) (r : RcloneRemote) (ev : ProcEvent)
    (hp : p ≠ "") (ht : remoteTarget r = "") :
    runRcloneSync p (some v) r ev =
      ⟨Except.error "请在设置中填写 Remote 名称与远程路径。", none⟩ := by
  cases ev with
  | spawnError msg => rw [runRcloneSync_spawnError, if_neg hp, if_pos ht]
  | exited code out err dur => rw [runRcloneSync_exited, if_neg hp, if_pos ht]

/-- Once the pre-flight checks pass, the runner issues exactly one
spawn call with the fixed argv and no shell. -/
theorem runRcloneSync_spawned_eq (p v : String) (r : RcloneRemote) (ev : ProcEvent)
    (hp : p ≠ "") (ht : remoteTarget r ≠ "") :
    (runRcloneSync p (some v) r ev).spawned =
      some ⟨p, ["bisync", v, remoteTarget r, "--verbose", "--resync"], false⟩ := by
  cases ev with
  | spawnError msg => rw [runRcloneSync_spawnError, if_neg hp, if_neg ht]
  | exited code out err dur =>
    rw [runRcloneSync_exited, if_neg hp, if_neg ht]
    by_cases h0 : code = some 0
    · rw [if_pos h0]
    · rw [if_neg h0]

theorem syncLoop_results_length (rclonePath : String) (vaultPath : Option String)
    (events : Nat → ProcEvent) :
    ∀ (remotes : List RcloneRemote) (i : Nat),
      (syncLoop rclonePath vaultPath events remotes i).1.length = remotes.length := by
  intro remotes
  induction remotes with
  | nil => intro i; rfl
  | cons r rest ih => intro i; simp [syncLoop, ih]

theorem syncLoop_results_get? (rclonePath : String) (vaultPath : Option String)
    (events : Nat → ProcEvent) :
    ∀ (remotes : List RcloneRemote) (i j : Nat),
      (syncLoop rclonePath vaultPath events remotes i).1.get? j =
        (remotes.get? j).map
          (fun r => mkSyncResult r (runRcloneSync rclonePath vaultPath r (events (i + j)))) := by
  intro remotes
  induction remotes with
  | nil => intro i j; cases j <;> rfl
  | cons r rest ih =>
    intro i j
    cases j with
    | zero => simp [syncLoop]
    | succ j =>
      simp only [syncLoop, List.get?]
      rw [ih (i + 1) j]
      have harith : i + 1 + j = i + (j + 1) := by omega
      rw [harith]

theorem syncLoop_results_map_remote (rclonePath : String) (vaultPath : Option String)
    (events : Nat → ProcEvent) :
    ∀ (remotes : List RcloneRemote) (i : Nat),
      (syncLoop rclonePath vaultPath events remotes i).1.map (fun r => r.remote) = remotes := by
  intro remotes
  induction remotes with
  | nil => intro i; rfl
  | cons r rest ih => intro i; simp [syncLoop, mkSyncResult_remote, ih]

/-- Shape of `handleSync` on an actual run (guard open, at least one
enabled remote). -/
theorem handleSync_run_eq (settings : ObsidianRcloneBridgeSettings) (st : PluginState)
    (vaultPath : Option String) (events : Nat → ProcEvent) (batchDur : String)
    (hguard : st.isSyncing = false)
    (hne : settings.remotes.filter (fun r => r.enable) ≠ []) :
    handleSync settings st vaultPath events batchDur =
      ⟨⟨false,
        if ((syncLoop settings.rclonePath vaultPath events
              (settings.remotes.filter (fun r => r.enable)) 0).1).all (fun r => r.success)
        then "同步成功" else "同步失败"⟩,
       [String.intercalate "\n"
         (("同步完成 (" ++ batchDur ++ "s)") ::
           ((syncLoop settings.rclonePath vaultPath events
               (settings.remotes.filter (fun r => r.enable)) 0).1).map (fun r =>
             (if r.remote.name = "" then "(未命名)" else r.remote.name) ++ ": " ++ r.summary))],
       (syncLoop settings.rclonePath vaultPath events
         (settings.remotes.filter (fun r => r.enable)) 0).1,
       (syncLoop settings.rclonePath vaultPath events
         (settings.remotes.filter (fun r => r.enable)) 0).2⟩ := by
  rw [handleSync]
  rw [hguard]
  simp only [Bool.false_eq_true, if_false]
  rw [if_neg (by simpa [List.isEmpty_iff] using hne)]

/-- Shape of `handleSync` when the guard is open but no remote is
enabled: the thrown config error is caught by the outer catch. -/
theorem handleSync_empty_eq (settings : ObsidianRcloneBridgeSettings) (st : PluginState)
    (vaultPath : Option String) (events : Nat → ProcEvent) (batchDur : String)
    (hguard : st.isSyncing = false)
    (he : settings.remotes.filter (fun r => r.enable) = []) :
    handleSync settings st vaultPath events batchDur =
      ⟨⟨false, "同步失败"⟩, ["同步失败: 请在设置中至少启用一个 Remote。"], [], []⟩ := by
  rw [handleSync]
  rw [hguard]
  simp only [Bool.false_eq_true, if_false]
  rw [if_pos (List.isEmpty_iff.mpr he)]

/-- With an empty executable path, every loop iteration fails with the
missing-executable config error and no spawn is issued. -/
theorem syncLoop_missing_exec (vaultPath : Option String) (events : Nat → ProcEvent) :
    ∀ (remotes : List RcloneRemote) (i : Nat),
      syncLoop "" vaultPath events remotes i =
        (remotes.map (fun r =>
          ⟨r, false, "失败: 请在设置中填写 rclone 可执行文件的绝对路径。"⟩), []) := by
  intro remotes
  induction remotes with
  | nil => intro i; rfl
  | cons r rest ih =>
    intro i
    simp only [syncLoop, ih, runRcloneSync_missing_exec, List.map_cons]
    rfl

/-! ## Claim theorems -/

/-- Claim C4: remote-address resolution. If the path contains the
delimiter, the effective address is the path itself; else if the name
is non-empty the address is `name ++ ":" ++ path`; and if the name is
empty and the path has no delimiter, the runner fails with one of the
pre-flight `ConfigError` messages and spawns no subprocess. -/
theorem remote_address_resolution (r : RcloneRemote) :
    (r.path.data.contains ':' = true → remoteTarget r = r.path) ∧
    (r.path.data.contains ':' = false → r.name ≠ "" →
      remoteTarget r = r.name ++ ":" ++ r.path) ∧
    (r.path.data.contains ':' = false → r.name = "" →
      ∀ (rclonePath : String) (vaultPath : Option String) (ev : ProcEvent),
        (runRcloneSync rclonePath vaultPath r ev).spawned = none ∧
        ∃ msg, (runRcloneSync rclonePath vaultPath r ev).result = Except.error msg ∧
          msg ∈ configErrorMessages) := by
  refine ⟨fun hc => ?_, fun hc hn => ?_, fun hc hn rclonePath vaultPath ev => ?_⟩
  · unfold remoteTarget
    rw [if_pos hc]
  · unfold remoteTarget
    rw [if_neg (fun h => by rw [hc] at h; cases h), if_pos hn]
  · have htgt : remoteTarget r = "" := (remoteTarget_eq_empty_iff r).2 ⟨hn, hc⟩
    by_cases hp : rclonePath = ""
    · subst hp
      rw [runRcloneSync_missing_exec]
      exact ⟨rfl, _, rfl, by decide⟩
    · cases vaultPath with
      | none =>
        rw [runRcloneSync_no_vault _ _ _ hp]
        exact ⟨rfl, _, rfl, by decide⟩
      | some vp =>
        rw [runRcloneSync_bad_target _ _ _ _ hp htgt]
        exact ⟨rfl, _, rfl, by decide⟩

/-- Witness for C4 at the concrete inputs of the specification. -/
theorem remote_address_resolution_witness :
    remoteTarget ⟨"onedrive", "vault", true⟩ = "onedrive:vault" ∧
    remoteTarget ⟨"onedrive", "remote:vault", true⟩ = "remote:vault" ∧
    ((runRcloneSync "/usr/bin/rclone" (some "/v") ⟨"", "", true⟩
        (ProcEvent.exited (some 0) "" "" "0.0")).spawned = none ∧
      ∃ msg, (runRcloneSync "/usr/bin/rclone" (some "/v") ⟨"", "", true⟩
          (ProcEvent.exited (some 0) "" "" "0.0")).result = Except.error msg ∧
        msg ∈ configErrorMessages) := by
  refine ⟨?_, ?_, ?_⟩
  · exact ((remote_address_resolution ⟨"onedrive", "vault", true⟩).2.1
      (by decide) (by decide)).trans (by decide)
  · exact (remote_address_resolution ⟨"onedrive", "remote:vault", true⟩).1 (by decide)
  · exact (remote_address_resolution ⟨"", "", true⟩).2.2 (by decide) (by decide)
      "/usr/bin/rclone" (some "/v") (ProcEvent.exited (some 0) "" "" "0.0")

/-- Claim C10: a non-empty name with an empty path resolves to the
non-empty address `name ++ ":"`, so no `ConfigError` is raised and the
subprocess is spawned against the root of the remote; and the
missing-name/path `ConfigError` guard (empty effective address) fires
exactly when the name is empty and the path has no delimiter. -/
theorem empty_path_edge (r : RcloneRemote) (hn : r.name ≠ "") (hp : r.path = "") :
    remoteTarget r = r.name ++ ":" ∧
    (∀ s : RcloneRemote, remoteTarget s = "" ↔
      (s.name = "" ∧ s.path.data.contains ':' = false)) ∧
    (∀ (rclonePath v : String) (ev : ProcEvent), rclonePath ≠ "" →
      (runRcloneSync rclonePath (some v) r ev).spawned =
        some ⟨rclonePath, ["bisync", v, r.name ++ ":", "--verbose", "--resync"], false⟩) := by
  have hc : r.path.data.contains ':' = false := by rw [hp]; rfl
  have htgt : remoteTarget r = r.name ++ ":" := by
    have hstep : remoteTarget r = r.name ++ ":" ++ r.path := by
      unfold remoteTarget
      rw [if_neg (fun h => by rw [hc] at h; cases h), if_pos hn]
    rw [hstep, hp]
    exact String.ext (by simp [String.data_append])
  refine ⟨htgt, fun s => remoteTarget_eq_empty_iff s, fun rclonePath v ev hrp => ?_⟩
  have hne : remoteTarget r ≠ "" := fun h =>
    hn ((remoteTarget_eq_empty_iff r).1 h).1
  rw [runRcloneSync_spawned_eq _ _ _ _ hrp hne, htgt]

/-- Witness for C10 at a concrete remote with empty path. -/
theorem empty_path_edge_witness :
    remoteTarget ⟨"onedrive", "", true⟩ = "onedrive:" ∧
    (runRcloneSync "/usr/bin/rclone" (some "/v") ⟨"onedrive", "", true⟩
        (ProcEvent.exited (some 0) "" "" "0.0")).spawned =
      some ⟨"/usr/bin/rclone", ["bisync", "/v", "onedrive:", "--verbose", "--resync"], false⟩ := by
  have h := empty_path_edge ⟨"onedrive", "", true⟩ (by decide) (by decide)
  refine ⟨h.1.trans (by decide), ?_⟩
  have h3 := h.2.2 "/usr/bin/rclone" "/v" (ProcEvent.exited (some 0) "" "" "0.0") (by decide)
  rw [h3]
  decide

/-- Claim C8: whenever `runRcloneSync` spawns, the command is the
configured executable, the argv is exactly
`["bisync", vaultPath, remoteTarget, "--verbose", "--resync"]` in that
order, and the shell option is false (direct argv array, no shell
interpretation). -/
theorem spawn_argv (rclonePath : String) (vaultPath : Option String)
    (r : RcloneRemote) (ev : ProcEvent) (call : SpawnCall)
    (h : (runRcloneSync rclonePath vaultPath r ev).spawned = some call) :
    ∃ v, vaultPath = some v ∧
      call.cmd = rclonePath ∧
      call.args = ["bisync", v, remoteTarget r, "--verbose", "--resync"] ∧
      call.shell = false := by
  by_cases hp : rclonePath = ""
  · subst hp
    rw [runRcloneSync_missing_exec] at h
    cases h
  · cases vaultPath with
    | none =>
      rw [runRcloneSync_no_vault _ _ _ hp] at h
      cases h
    | some v =>
      by_cases ht : remoteTarget r = ""
      · rw [runRcloneSync_bad_target _ _ _ _ hp ht] at h
        cases h
      · rw [runRcloneSync_spawned_eq _ _ _ _ hp ht] at h
        obtain rfl : call = _ := (Option.some.inj h).symm
        exact ⟨v, rfl, rfl, rfl, rfl⟩

/-- Witness for C8 at a concrete spawned run. -/
theorem spawn_argv_witness :
    ∃ v, (some "/vault" : Option String) = some v ∧
      (SpawnCall.mk "/usr/bin/rclone"
          ["bisync", "/vault", "a:v", "--verbose", "--resync"] false).cmd = "/usr/bin/rclone" ∧
      (SpawnCall.mk "/usr/bin/rclone"
          ["bisync", "/vault", "a:v", "--verbose", "--resync"] false).args =
        ["bisync", v, remoteTarget ⟨"a", "a:v", true⟩, "--verbose", "--resync"] ∧
      (SpawnCall.mk "/usr/bin/rclone"
          ["bisync", "/vault", "a:v", "--verbose", "--resync"] false).shell = false :=
  spawn_argv "/usr/bin/rclone" (some "/vault") ⟨"a", "a:v", true⟩
    (ProcEvent.exited (some 0) "" "" "0.0")
    ⟨"/usr/bin/rclone", ["bisync", "/vault", "a:v", "--verbose", "--resync"], false⟩
    (by decide)

/-- Claim C5: parser decision policy, first matching rule wins. When
the no-changes marker holds (`noChangesB`: the regex test for the three
phrases, or transferred files exactly 0), the summary is the
already-up-to-date form regardless of other matches; otherwise a
captured transferred size appears verbatim in the summary; otherwise
the generic done fallback — the parser is a total function, never an
error. -/
theorem parse_decision_policy (combined dur : String) :
    (noChangesB combined = true →
      buildSummary combined dur = "已是最新 (耗时 " ++ dur ++ "s)") ∧
    (noChangesB combined = false → ∀ sz, transferredSize combined = some sz →
      sz.data <:+: (buildSummary combined dur).data) ∧
    (noChangesB combined = false → transferredSize combined = none →
      buildSummary combined dur = "完成 (耗时 " ++ dur ++ "s)") := by
  refine ⟨fun h => ?_, fun h sz hsz => ?_, fun h hnone => ?_⟩
  · unfold buildSummary
    rw [if_pos h]
  · unfold buildSummary
    rw [if_neg (fun hh => by rw [h] at hh; cases hh), hsz]
    exact ⟨((if filesPartOf combined == "" then "" else filesPartOf combined ++ ", ")).data,
           (" (耗时 " ++ dur ++ "s" ++ checksPartOf combined ++ ")").data, rfl⟩
  · unfold buildSummary
    rw [if_neg (fun hh => by rw [h] at hh; cases hh), hnone]

/-- Witness for C5 on three concrete output texts: a no-changes marker
overriding a size match, a size capture appearing in the summary, and
the generic fallback. -/
theorem parse_decision_policy_witness :
    buildSummary "Transferred: 1.234 MiB / 1.234 MiB, Nothing to do" "1.0" =
      "已是最新 (耗时 1.0s)" ∧
    "1.234 MiB".data <:+:
      (buildSummary "Checks: 5 / 5\nTransferred: 1.234 MiB / 1.234 MiB\nTransferred: 2 / 2"
        "2.0").data ∧
    buildSummary "" "0.3" = "完成 (耗时 0.3s)" := by
  refine ⟨?_, ?_, ?_⟩
  · exact ((parse_decision_policy "Transferred: 1.234 MiB / 1.234 MiB, Nothing to do"
      "1.0").1 (by decide)).trans (by decide)
  · exact (parse_decision_policy
      "Checks: 5 / 5\nTransferred: 1.234 MiB / 1.234 MiB\nTransferred: 2 / 2" "2.0").2.1
      (by decide) "1.234 MiB" (by decide)
  · exact ((parse_decision_policy "" "0.3").2.2 (by decide) (by decide)).trans (by decide)

/-- Claim C1: failure isolation. On a real run (guard open, at least
one enabled target), one result is recorded per enabled target; the
j-th result is exactly the per-target conversion of the runner
outcome of the j-th target, and a runner error is converted into a failed
result carrying the message — errors never escape the loop. -/
theorem handleSync_failure_isolation
    (settings : ObsidianRcloneBridgeSettings) (st : PluginState) (vaultPath : Option String)
    (events : Nat → ProcEvent) (batchDur : String)
    (hguard : st.isSyncing = false)
    (hne : settings.remotes.filter (fun r => r.enable) ≠ []) :
    (handleSync settings st vaultPath events batchDur).results.length =
      (settings.remotes.filter (fun r => r.enable)).length ∧
    (∀ j, (handleSync settings st vaultPath events batchDur).results.get? j =
      ((settings.remotes.filter (fun r => r.enable)).get? j).map
        (fun r => mkSyncResult r (runRcloneSync settings.rclonePath vaultPath r (events j)))) ∧
    (∀ j r msg, (settings.remotes.filter (fun r => r.enable)).get? j = some r →
      (runRcloneSync settings.rclonePath vaultPath r (events j)).result = Except.error msg →
      (handleSync settings st vaultPath events batchDur).results.get? j =
        some ⟨r, false, "失败: " ++ msg⟩) := by
  rw [handleSync_run_eq settings st vaultPath events batchDur hguard hne]
  refine ⟨syncLoop_results_length _ _ _ _ 0, fun j => ?_, fun j r msg hr hres => ?_⟩
  · have h := syncLoop_results_get? settings.rclonePath vaultPath events
      (settings.remotes.filter (fun r => r.enable)) 0 j
    rw [Nat.zero_add] at h
    exact h
  · have h := syncLoop_results_get? settings.rclonePath vaultPath events
      (settings.remotes.filter (fun r => r.enable)) 0 j
    rw [Nat.zero_add, hr] at h
    show (syncLoop settings.rclonePath vaultPath events
      (settings.remotes.filter (fun r => r.enable)) 0).1.get? j = _
    rw [h]
    unfold mkSyncResult
    rw [Option.map_some', hres]

/-- Witness for C1: three enabled targets, the middle one exits
non-zero; all three results are recorded and the middle failure is
converted to a failed result with the diagnostic message. -/
theorem handleSync_failure_isolation_witness :
    (handleSync ⟨"/usr/bin/rclone",
        [⟨"a", "a:v", true⟩, ⟨"b", "b:v", true⟩, ⟨"c", "c:v", true⟩]⟩ ⟨false, "就绪"⟩
        (some "/vault")
        (fun i => if i = 1 then ProcEvent.exited (some 1) "" "boom" "0.2"
                  else ProcEvent.exited (some 0) "No changes" "" "0.5") "0.8").results.length =
      3 ∧
    (handleSync ⟨"/usr/bin/rclone",
        [⟨"a", "a:v", true⟩, ⟨"b", "b:v", true⟩, ⟨"c", "c:v", true⟩]⟩ ⟨false, "就绪"⟩
        (some "/vault")
        (fun i => if i = 1 then ProcEvent.exited (some 1) "" "boom" "0.2"
                  else ProcEvent.exited (some 0) "No changes" "" "0.5") "0.8").results.get? 1 =
      some ⟨⟨"b", "b:v", true⟩, false, "失败: " ++ "rclone 退出码 1\nboom"⟩ := by
  have h := handleSync_failure_isolation ⟨"/usr/bin/rclone",
    [⟨"a", "a:v", true⟩, ⟨"b", "b:v", true⟩, ⟨"c", "c:v", true⟩]⟩ ⟨false, "就绪"⟩
    (some "/vault")
    (fun i => if i = 1 then ProcEvent.exited (some 1) "" "boom" "0.2"
              else ProcEvent.exited (some 0) "No changes" "" "0.5") "0.8" rfl (by decide)
  exact ⟨h.1.trans (by decide),
         h.2.2 1 ⟨"b", "b:v", true⟩ "rclone 退出码 1\nboom" (by decide) (by decide)⟩

/-- Claim C2: single-flight guard. A request while a run is in
progress only raises the already-in-progress notice — state unchanged,
no results, no spawns; and every actual run ends with the guard reset
to idle (the `finally` discipline), so a new run can start. -/
theorem handleSync_single_flight (settings : ObsidianRcloneBridgeSettings)
    (st : PluginState) (vaultPath : Option String) (events : Nat → ProcEvent)
    (batchDur : String) :
    (st.isSyncing = true →
      handleSync settings st vaultPath events batchDur =
        ⟨st, ["已有同步任务正在进行，请稍候..."], [], []⟩) ∧
    (st.isSyncing = false →
      (handleSync settings st vaultPath events batchDur).finalState.isSyncing = false) := by
  constructor
  · intro h
    rw [handleSync, if_pos h]
  · intro h
    by_cases he : settings.remotes.filter (fun r => r.enable) = []
    · rw [handleSync_empty_eq settings st vaultPath events batchDur h he]
    · rw [handleSync_run_eq settings st vaultPath events batchDur h he]

/-- Witness for C2: a guarded request leaves everything untouched, and
a completed run has the guard reset. -/
theorem handleSync_single_flight_witness :
    handleSync ⟨"/usr/bin/rclone", [⟨"a", "a:v", true⟩]⟩ ⟨true, "正在同步..."⟩ (some "/vault")
        (fun _ => ProcEvent.exited (some 0) "" "" "0.0") "0.1" =
      ⟨⟨true, "正在同步..."⟩, ["已有同步任务正在进行，请稍候..."], [], []⟩ ∧
    (handleSync ⟨"/usr/bin/rclone", [⟨"a", "a:v", true⟩]⟩ ⟨false, "就绪"⟩ (some "/vault")
        (fun _ => ProcEvent.exited (some 0) "" "" "0.0") "0.1").finalState.isSyncing = false := by
  constructor
  · exact (handleSync_single_flight ⟨"/usr/bin/rclone", [⟨"a", "a:v", true⟩]⟩
      ⟨true, "正在同步..."⟩ (some "/vault")
      (fun _ => ProcEvent.exited (some 0) "" "" "0.0") "0.1").1 rfl
  · exact (handleSync_single_flight ⟨"/usr/bin/rclone", [⟨"a", "a:v", true⟩]⟩
      ⟨false, "就绪"⟩ (some "/vault")
      (fun _ => ProcEvent.exited (some 0) "" "" "0.0") "0.1").2 rfl

/-- Claim C6: sequential order. On any non-guarded call the runner is
invoked once per enabled target (disabled targets never), in snapshot
order — the results list maps back to exactly the enabled snapshot —
and the j-th result is produced by the j-th invocation in rank order
(the embedding is strictly sequential: invocation j+1 is only reached
after the outcome of invocation j is recorded). -/
theorem sequential_order (settings : ObsidianRcloneBridgeSettings) (st : PluginState)
    (vaultPath : Option String) (events : Nat → ProcEvent) (batchDur : String)
    (hguard : st.isSyncing = false) :
    (handleSync settings st vaultPath events batchDur).results.map (fun r => r.remote) =
      settings.remotes.filter (fun r => r.enable) ∧
    (∀ j, ((handleSync settings st vaultPath events batchDur).results.map
        (fun r => r.remote)).get? j =
      (settings.remotes.filter (fun r => r.enable)).get? j) := by
  have hmain : (handleSync settings st vaultPath events batchDur).results.map
      (fun r => r.remote) = settings.remotes.filter (fun r => r.enable) := by
    by_cases he : settings.remotes.filter (fun r => r.enable) = []
    · rw [handleSync_empty_eq settings st vaultPath events batchDur hguard he, he]
      rfl
    · rw [handleSync_run_eq settings st vaultPath events batchDur hguard he]
      exact syncLoop_results_map_remote _ _ _ _ 0
  exact ⟨hmain, fun j => by rw [hmain]⟩

/-- Witness for C6: with the middle target disabled, exactly the two
enabled targets are invoked, in list order. -/
theorem sequential_order_witness :
    (handleSync ⟨"/usr/bin/rclone",
        [⟨"a", "a:v", true⟩, ⟨"b", "x", false⟩, ⟨"c", "c:v", true⟩]⟩ ⟨false, "就绪"⟩
        (some "/vault") (fun _ => ProcEvent.exited (some 0) "" "" "0.0") "0.5").results.map
      (fun r => r.remote) = [⟨"a", "a:v", true⟩, ⟨"c", "c:v", true⟩] := by
  exact ((sequential_order ⟨"/usr/bin/rclone",
    [⟨"a", "a:v", true⟩, ⟨"b", "x", false⟩, ⟨"c", "c:v", true⟩]⟩ ⟨false, "就绪"⟩
    (some "/vault") (fun _ => ProcEvent.exited (some 0) "" "" "0.0") "0.5" rfl).1).trans
    (by decide)

/-- Claim C7: on every completed batch run the aggregate status is the
success indicator exactly when every per-target result succeeded
(otherwise the failure indicator), and the final notification is the
batch header followed by one status line per attempted target. -/
theorem batch_outcome (settings : ObsidianRcloneBridgeSettings) (st : PluginState)
    (vaultPath : Option String) (events : Nat → ProcEvent) (batchDur : String)
    (hguard : st.isSyncing = false)
    (hne : settings.remotes.filter (fun r => r.enable) ≠ []) :
    ((handleSync settings st vaultPath events batchDur).finalState.status = "同步成功" ↔
      (handleSync settings st vaultPath events batchDur).results.all
        (fun r => r.success) = true) ∧
    ((handleSync settings st vaultPath events batchDur).finalState.status = "同步成功" ∨
      (handleSync settings st vaultPath events batchDur).finalState.status = "同步失败") ∧
    (handleSync settings st vaultPath events batchDur).notices =
      [String.intercalate "\n"
        (("同步完成 (" ++ batchDur ++ "s)") ::
          (handleSync settings st vaultPath events batchDur).results.map (fun r =>
            (if r.remote.name = "" then "(未命名)" else r.remote.name) ++ ": " ++
              r.summary))] := by
  rw [handleSync_run_eq settings st vaultPath events batchDur hguard hne]
  by_cases hall : ((syncLoop settings.rclonePath vaultPath events
      (settings.remotes.filter (fun r => r.enable)) 0).1).all (fun r => r.success) = true
  · refine ⟨?_, ?_, rfl⟩
    · show (if _ then "同步成功" else "同步失败") = "同步成功" ↔ _
      rw [if_pos hall]
      exact ⟨fun _ => hall, fun _ => rfl⟩
    · show (if _ then "同步成功" else "同步失败") = "同步成功" ∨
        (if _ then "同步成功" else "同步失败") = "同步失败"
      rw [if_pos hall]
      exact Or.inl rfl
  · refine ⟨?_, ?_, rfl⟩
    · show (if _ then "同步成功" else "同步失败") = "同步成功" ↔ _
      rw [if_neg hall]
      exact ⟨fun hcon => absurd hcon (by decide), fun hcon => absurd hcon hall⟩
    · show (if _ then "同步成功" else "同步失败") = "同步成功" ∨
        (if _ then "同步成功" else "同步失败") = "同步失败"
      rw [if_neg hall]
      exact Or.inr rfl

/-- Witness for C7 on a concrete run with one success and one failure:
the status biconditional and the per-target notification lines. -/
theorem batch_outcome_witness :
    ((handleSync ⟨"/usr/bin/rclone", [⟨"a", "a:v", true⟩, ⟨"b", "b:v", true⟩]⟩
        ⟨false, "就绪"⟩ (some "/vault")
        (fun i => if i = 0 then ProcEvent.exited (some 0) "" "" "0.1"
                  else ProcEvent.exited (some 1) "" "x" "0.1") "0.3").finalState.status =
        "同步成功" ↔
      (handleSync ⟨"/usr/bin/rclone", [⟨"a", "a:v", true⟩, ⟨"b", "b:v", true⟩]⟩
        ⟨false, "就绪"⟩ (some "/vault")
        (fun i => if i = 0 then ProcEvent.exited (some 0) "" "" "0.1"
                  else ProcEvent.exited (some 1) "" "x" "0.1") "0.3").results.all
        (fun r => r.success) = true) ∧
    ((handleSync ⟨"/usr/bin/rclone", [⟨"a", "a:v", true⟩, ⟨"b", "b:v", true⟩]⟩
        ⟨false, "就绪"⟩ (some "/vault")
        (fun i => if i = 0 then ProcEvent.exited (some 0) "" "" "0.1"
                  else ProcEvent.exited (some 1) "" "x" "0.1") "0.3").finalState.status =
        "同步成功" ∨
      (handleSync ⟨"/usr/bin/rclone", [⟨"a", "a:v", true⟩, ⟨"b", "b:v", true⟩]⟩
        ⟨false, "就绪"⟩ (some "/vault")
        (fun i => if i = 0 then ProcEvent.exited (some 0) "" "" "0.1"
                  else ProcEvent.exited (some 1) "" "x" "0.1") "0.3").finalState.status =
        "同步失败") ∧
    (handleSync ⟨"/usr/bin/rclone", [⟨"a", "a:v", true⟩, ⟨"b", "b:v", true⟩]⟩
        ⟨false, "就绪"⟩ (some "/vault")
        (fun i => if i = 0 then ProcEvent.exited (some 0) "" "" "0.1"
                  else ProcEvent.exited (some 1) "" "x" "0.1") "0.3").notices =
      [String.intercalate "\n"
        (("同步完成 (" ++ "0.3" ++ "s)") ::
          (handleSync ⟨"/usr/bin/rclone", [⟨"a", "a:v", true⟩, ⟨"b", "b:v", true⟩]⟩
            ⟨false, "就绪"⟩ (some "/vault")
            (fun i => if i = 0 then ProcEvent.exited (some 0) "" "" "0.1"
                      else ProcEvent.exited (some 1) "" "x" "0.1") "0.3").results.map
            (fun r =>
              (if r.remote.name = "" then "(未命名)" else r.remote.name) ++ ": " ++
                r.summary))] :=
  batch_outcome ⟨"/usr/bin/rclone", [⟨"a", "a:v", true⟩, ⟨"b", "b:v", true⟩]⟩
    ⟨false, "就绪"⟩ (some "/vault")
    (fun i => if i = 0 then ProcEvent.exited (some 0) "" "" "0.1"
              else ProcEvent.exited (some 1) "" "x" "0.1") "0.3" rfl (by decide)

/-- Counterexample to C3: with a missing executable path and one
enabled target, the batch IS attempted — a per-target SyncResult is
recorded (so "no per-target SyncResult is recorded" fails) and the
notification is the normal batch-completion summary, not a sole batch
failure. -/
theorem config_error_batch_cex :
    (handleSync ⟨"", [⟨"a", "a:v", true⟩]⟩ ⟨false, "就绪"⟩ (some "/vault")
        (fun _ => ProcEvent.exited (some 0) "" "" "0.0") "0.1").results =
      [⟨⟨"a", "a:v", true⟩, false, "失败: 请在设置中填写 rclone 可执行文件的绝对路径。"⟩] ∧
    (handleSync ⟨"", [⟨"a", "a:v", true⟩]⟩ ⟨false, "就绪"⟩ (some "/vault")
        (fun _ => ProcEvent.exited (some 0) "" "" "0.0") "0.1").notices =
      ["同步完成 (0.1s)\na: 失败: 请在设置中填写 rclone 可执行文件的绝对路径。"] := by
  exact ⟨by decide, by decide⟩

/-- Claim C3 as amended: only the zero-enabled-targets ConfigError is
surfaced at the batch level (no subprocess, no per-target result, sole
failure notice). A missing executable path yields per-target failed
results with no subprocess spawned at all, and an invalid remote
address fails the runner of that target with the config error and no spawn,
while the batch continues. -/
theorem config_error_handling_amended (settings : ObsidianRcloneBridgeSettings)
    (st : PluginState) (vaultPath : Option String) (events : Nat → ProcEvent)
    (batchDur : String) (hguard : st.isSyncing = false) :
    (settings.remotes.filter (fun r => r.enable) = [] →
      handleSync settings st vaultPath events batchDur =
        ⟨⟨false, "同步失败"⟩, ["同步失败: 请在设置中至少启用一个 Remote。"], [], []⟩) ∧
    (settings.rclonePath = "" →
      (handleSync settings st vaultPath events batchDur).spawns = [] ∧
      ∀ j r, (settings.remotes.filter (fun r => r.enable)).get? j = some r →
        (handleSync settings st vaultPath events batchDur).results.get? j =
          some ⟨r, false, "失败: 请在设置中填写 rclone 可执行文件的绝对路径。"⟩) ∧
    (∀ (r : RcloneRemote) (v : String) (ev : ProcEvent),
      settings.rclonePath ≠ "" → remoteTarget r = "" →
      runRcloneSync settings.rclonePath (some v) r ev =
        ⟨Except.error "请在设置中填写 Remote 名称与远程路径。", none⟩) := by
  refine ⟨fun he => handleSync_empty_eq settings st vaultPath events batchDur hguard he,
    fun hpath => ?_, fun r v ev hp ht => runRcloneSync_bad_target _ _ _ _ hp ht⟩
  by_cases he : settings.remotes.filter (fun r => r.enable) = []
  · rw [handleSync_empty_eq settings st vaultPath events batchDur hguard he]
    refine ⟨rfl, fun j r hr => ?_⟩
    rw [he] at hr
    cases j <;> cases hr
  · rw [handleSync_run_eq settings st vaultPath events batchDur hguard he]
    constructor
    · show (syncLoop settings.rclonePath vaultPath events
        (settings.remotes.filter (fun r => r.enable)) 0).2 = []
      rw [hpath, syncLoop_missing_exec]
    · intro j r hr
      show (syncLoop settings.rclonePath vaultPath events
        (settings.remotes.filter (fun r => r.enable)) 0).1.get? j = _
      rw [hpath, syncLoop_missing_exec]
      rw [List.get?_map, hr]
      rfl

/-- Witness for the amended C3: concrete run with empty executable
path — no spawn at all, and the result of the enabled target is the
per-target config failure. -/
theorem config_error_handling_amended_witness :
    (handleSync ⟨"", [⟨"a", "a:v", true⟩]⟩ ⟨false, "就绪"⟩ (some "/vault")
        (fun _ => ProcEvent.exited (some 0) "" "" "0.0") "0.1").spawns = [] ∧
    (handleSync ⟨"", [⟨"a", "a:v", true⟩]⟩ ⟨false, "就绪"⟩ (some "/vault")
        (fun _ => ProcEvent.exited (some 0) "" "" "0.0") "0.1").results.get? 0 =
      some ⟨⟨"a", "a:v", true⟩, false,
        "失败: 请在设置中填写 rclone 可执行文件的绝对路径。"⟩ := by
  have h := (config_error_handling_amended ⟨"", [⟨"a", "a:v", true⟩]⟩ ⟨false, "就绪"⟩
    (some "/vault") (fun _ => ProcEvent.exited (some 0) "" "" "0.0") "0.1" rfl).2.1 rfl
  exact ⟨h.1, h.2 0 ⟨"a", "a:v", true⟩ (by decide)⟩

/-- Counterexample to C9: legacy fields that are present but empty
strings are falsy, so no migration happens — the claim mandates a
synthesized `[{name:"", path:"", enable:true}]` entry for this input,
but the loaded remotes list is empty. -/
theorem legacy_migration_cex :
    (loadSettings ⟨some "/usr/bin/rclone", none, some "", some ""⟩).remotes = [] ∧
    ([] : List RcloneRemote) ≠ [⟨"", "", true⟩] := by
  exact ⟨by decide, by decide⟩

/-- Claim C9 as amended: when the stored remotes list is absent or
empty and at least one legacy field is present with a non-empty value
(JavaScript truthiness), loading synthesizes the single migrated entry
(absent legacy fields defaulting to the empty string); when both
legacy fields are falsy, or the remotes list is non-empty, no
migration occurs. Loading never writes storage, so the migration is
non-destructive by construction. -/
theorem legacy_migration_amended (data : StoredData) :
    ((data.remotes.getD []).isEmpty = true →
      (truthyStr data.remoteName || truthyStr data.remotePath) = true →
      loadSettings data =
        ⟨data.rclonePath.getD "",
         [⟨data.remoteName.getD "", data.remotePath.getD "", true⟩]⟩) ∧
    ((truthyStr data.remoteName || truthyStr data.remotePath) = false →
      loadSettings data = ⟨data.rclonePath.getD "", data.remotes.getD []⟩) ∧
    ((data.remotes.getD []).isEmpty = false →
      loadSettings data = ⟨data.rclonePath.getD "", data.remotes.getD []⟩) := by
  unfold loadSettings
  simp only [DEFAULT_SETTINGS]
  refine ⟨fun h1 h2 => ?_, fun h3 => ?_, fun h4 => ?_⟩
  · rw [if_pos (by rw [h1, h2]; rfl)]
  · rw [if_neg (by rw [h3, Bool.and_false]; exact Bool.false_ne_true)]
  · rw [if_neg (by rw [h4, Bool.false_and]; exact Bool.false_ne_true)]

/-- Witness for the amended C9: a present non-empty legacy name with
an absent legacy path migrates to a single enabled entry. -/
theorem legacy_migration_amended_witness :
    loadSettings ⟨none, none, some "legacy", none⟩ = ⟨"", [⟨"legacy", "", true⟩]⟩ := by
  exact ((legacy_migration_amended ⟨none, none, some "legacy", none⟩).1
    (by decide) (by decide)).trans (by decide)

end RcloneBridge
